import Mathlib

/-!
Shallow embedding of the two inference services:

* `Sugarcane` models `sugarcane-disease-api/prediction.py`: the ensemble
  predictor `predict_sugarcane`, the preprocessing step `preprocess_image`,
  the heuristic fallback `heuristic_predict`, and the demo-mode toggle.
  Pixel channel values and channel means are modelled as exact rationals
  (the source computes float32 statistics of 8-bit channel data; every
  concrete value appearing in the rules is exactly representable).
  External collaborators (PIL image decoding and resizing, Keras
  `load_img`, `np.random.randint`) are modelled as explicit parameters or
  small functions mirroring their documented behaviour.

* `Crop` models `crop-rotation-api/app.py`: the category code tables, the
  reverse label table, the feature-row assembly and the request handler
  `crop_recommendation`.  The pickled classifier is opaque in the source,
  so it is a parameter of type `FeatureRow → Except String Int`
  (`Except.error` standing for a raised exception caught by the
  handler's broad `except` clause).  Flask `jsonify` responses are
  modelled as a body plus an HTTP status (default 200).
-/

namespace Sugarcane

/-- An RGB image after `im.convert('RGB').resize((128, 128))`, as the pixel
grid of (R, G, B) channel values (prediction.py line 69). -/
abbrev Img128 := Fin 128 → Fin 128 → ℚ × ℚ × ℚ

/-- Per-channel mean `arr[:, :, 0].mean()` over the 128x128 grid
(prediction.py line 75). -/
def meanR (g : Img128) : ℚ :=
  (∑ i : Fin 128, ∑ j : Fin 128, (g i j).1) / (128 * 128)

/-- Per-channel mean `arr[:, :, 1].mean()` (prediction.py line 76). -/
def meanG (g : Img128) : ℚ :=
  (∑ i : Fin 128, ∑ j : Fin 128, (g i j).2.1) / (128 * 128)

/-- Per-channel mean `arr[:, :, 2].mean()` (prediction.py line 77). -/
def meanB (g : Img128) : ℚ :=
  (∑ i : Fin 128, ∑ j : Fin 128, (g i j).2.2) / (128 * 128)

/-- The `brightness = (Rm + Gm + Bm) / 3.0` statistic (prediction.py line 78). -/
def brightness (Rm Gm Bm : ℚ) : ℚ := (Rm + Gm + Bm) / 3

/-- The ordered rule chain of `heuristic_predict` after the channel means are
computed (prediction.py lines 80-97), translated condition by condition.
Python's chained comparison `Rm > Gm > Bm` is the conjunction
`Rm > Gm ∧ Gm > Bm`, and `60 < brightness < 180` is
`60 < brightness ∧ brightness < 180`. -/
def heuristic_core (Rm Gm Bm : ℚ) : ℕ :=
  if Gm - max Rm Bm ≥ 20 then 0
  else if Rm > 120 ∧ Gm > 120 ∧ Bm < 100 then 4
  else if Rm - max Gm Bm ≥ 20 then 2
  else if Rm > Gm ∧ Gm > Bm ∧ 60 < brightness Rm Gm Bm ∧ brightness Rm Gm Bm < 180 then 3
  else 1

/-- `heuristic_predict` (prediction.py lines 57-97).  The argument is the
outcome of `Image.open(...).convert('RGB').resize((128, 128))`: `none` when
`Image.open` (or decoding) raises, in which case the `except` clause returns
class 0; otherwise the decoded, resized pixel grid. -/
def heuristic_predict (im : Option Img128) : ℕ :=
  match im with
  | none => 0
  | some g => heuristic_core (meanR g) (meanG g) (meanB g)

/-- Guard of the i-th rule of the heuristic chain, in source order; rule 4 is
the catch-all (guard `True`).  Indices past the chain never fire. -/
def ruleGuard (Rm Gm Bm : ℚ) : ℕ → Prop
  | 0 => Gm - max Rm Bm ≥ 20
  | 1 => Rm > 120 ∧ Gm > 120 ∧ Bm < 100
  | 2 => Rm - max Gm Bm ≥ 20
  | 3 => Rm > Gm ∧ Gm > Bm ∧ 60 < brightness Rm Gm Bm ∧ brightness Rm Gm Bm < 180
  | 4 => True
  | _ + 5 => False

/-- Class index returned by the i-th rule (Healthy 0, Yellow 4, RedRot 2,
Rust 3, Mosaic 1). -/
def ruleClass : ℕ → ℕ
  | 0 => 0
  | 1 => 4
  | 2 => 2
  | 3 => 3
  | _ => 1

/-- Rule i fires when its guard holds and no earlier guard holds: this is the
first-match semantics of the if/elif chain. -/
def fires (Rm Gm Bm : ℚ) (i : ℕ) : Prop :=
  ruleGuard Rm Gm Bm i ∧ ∀ j < i, ¬ ruleGuard Rm Gm Bm j

theorem fires_ruleClass (Rm Gm Bm : ℚ) (i : ℕ) (h : fires Rm Gm Bm i) :
    heuristic_core Rm Gm Bm = ruleClass i := by
  obtain ⟨hg, hmin⟩ := h
  rcases i with _ | _ | _ | _ | _ | n
  · have hg0 : Gm - max Rm Bm ≥ 20 := hg
    simp [heuristic_core, ruleClass, hg0]
  · have hg1 : Rm > 120 ∧ Gm > 120 ∧ Bm < 100 := hg
    have h0 : ¬ (Gm - max Rm Bm ≥ 20) := hmin 0 (by omega)
    simp [heuristic_core, ruleClass, hg1, h0]
  · have hg2 : Rm - max Gm Bm ≥ 20 := hg
    have h0 : ¬ (Gm - max Rm Bm ≥ 20) := hmin 0 (by omega)
    have h1 : ¬ (Rm > 120 ∧ Gm > 120 ∧ Bm < 100) := hmin 1 (by omega)
    simp [heuristic_core, ruleClass, hg2, h0, h1]
  · have hg3 : Rm > Gm ∧ Gm > Bm ∧ 60 < brightness Rm Gm Bm ∧ brightness Rm Gm Bm < 180 := hg
    have h0 : ¬ (Gm - max Rm Bm ≥ 20) := hmin 0 (by omega)
    have h1 : ¬ (Rm > 120 ∧ Gm > 120 ∧ Bm < 100) := hmin 1 (by omega)
    have h2 : ¬ (Rm - max Gm Bm ≥ 20) := hmin 2 (by omega)
    simp [heuristic_core, ruleClass, hg3, h0, h1, h2]
  · have h0 : ¬ (Gm - max Rm Bm ≥ 20) := hmin 0 (by omega)
    have h1 : ¬ (Rm > 120 ∧ Gm > 120 ∧ Bm < 100) := hmin 1 (by omega)
    have h2 : ¬ (Rm - max Gm Bm ≥ 20) := hmin 2 (by omega)
    have h3 : ¬ (Rm > Gm ∧ Gm > Bm ∧ 60 < brightness Rm Gm Bm ∧ brightness Rm Gm Bm < 180) :=
      hmin 3 (by omega)
    simp [heuristic_core, ruleClass, h0, h1, h2, h3]
  · exact absurd hg (by simp [ruleGuard])

theorem fires_exists (Rm Gm Bm : ℚ) : ∃ i, fires Rm Gm Bm i := by
  by_cases h0 : ruleGuard Rm Gm Bm 0
  · exact ⟨0, h0, fun j hj => absurd hj (Nat.not_lt_zero j)⟩
  by_cases h1 : ruleGuard Rm Gm Bm 1
  · refine ⟨1, h1, ?_⟩
    intro j hj
    interval_cases j
    exact h0
  by_cases h2 : ruleGuard Rm Gm Bm 2
  · refine ⟨2, h2, ?_⟩
    intro j hj
    interval_cases j <;> assumption
  by_cases h3 : ruleGuard Rm Gm Bm 3
  · refine ⟨3, h3, ?_⟩
    intro j hj
    interval_cases j <;> assumption
  · refine ⟨4, trivial, ?_⟩
    intro j hj
    interval_cases j <;> assumption

theorem fires_unique (Rm Gm Bm : ℚ) (i j : ℕ)
    (hi : fires Rm Gm Bm i) (hj : fires Rm Gm Bm j) : i = j := by
  rcases lt_trichotomy i j with h | h | h
  · exact absurd hi.1 (hj.2 i h)
  · exact h
  · exact absurd hj.1 (hi.2 j h)

/-- An RGB image as delivered by Keras `load_img(path, target_size=(224, 224))`:
a 224x224 grid of three 8-bit channel values (resizing itself is done inside
Keras/PIL, outside this codebase). -/
abbrev Img224 := Fin 224 → Fin 224 → Fin 3 → ℚ

/-- A batched tensor of shape (1, 224, 224, 3), the model input shape. -/
abbrev Tensor := Fin 1 → Fin 224 → Fin 224 → Fin 3 → ℚ

/-- A batched probability output of shape (1, 5), one row per batch entry. -/
abbrev BatchProbs := Fin 1 → Fin 5 → ℚ

/-- A loaded Keras model, opaque in the source: a function from the input
tensor to a (1, 5) probability array. -/
abbrev Model := Tensor → BatchProbs

/-- `preprocess_image` (prediction.py lines 99-109): `np.expand_dims(_, axis=0)`
adds the leading batch dimension of size 1, then `img_array /= 255.0` rescales
every entry. -/
def preprocess_image (img : Img224) : Tensor :=
  fun _ i j c => img i j c / 255

/-- `np.mean(preds_array, axis=0)` on the stacked (N, 1, 5) prediction array:
the elementwise arithmetic mean across the N models (prediction.py line 51). -/
def np_mean_axis0 (ps : List BatchProbs) : BatchProbs :=
  fun b i => (ps.map (fun p => p b i)).sum / ps.length

/-- Accumulator for `np.argmax` over a row: scans left to right, keeping the
first index attaining the maximum (a later entry replaces the current best
only when strictly greater). -/
def argmaxGo : List ℚ → ℕ → ℕ → ℚ → ℕ
  | [], _, best, _ => best
  | x :: xs, idx, best, bv =>
    if bv < x then argmaxGo xs (idx + 1) idx x else argmaxGo xs (idx + 1) best bv

/-- `np.argmax` over a length-5 probability row (prediction.py line 53). -/
def np_argmax_row (v : Fin 5 → ℚ) : ℕ :=
  argmaxGo [v 1, v 2, v 3, v 4] 1 0 (v 0)

/-- `MODEL_PRESENT = len(models) > 0` (prediction.py line 32). -/
def MODEL_PRESENT (models : List Model) : Bool :=
  decide (0 < models.length)

/-- Model of `np.random.randint(lo, hi)` (excluded upper bound): an abstract
random draw `r` is mapped into `[lo, hi)` as `lo + r % (hi - lo)`. -/
def np_randint (lo hi r : ℕ) : ℕ :=
  lo + r % (hi - lo)

/-- Model of Python `str.strip()`: remove leading and trailing whitespace
characters. -/
def pyStrip (s : String) : String :=
  String.mk (((s.data.dropWhile Char.isWhitespace).reverse.dropWhile
    Char.isWhitespace).reverse)

/-- `DEMO_MODE = str(os.getenv('SUGARCANE_DEMO_MODE', '')).strip() == '1'`
(prediction.py line 35); the argument is the environment value, `none` when
the variable is unset (so `getenv`'s default `''` applies). -/
def DEMO_MODE (env : Option String) : Bool :=
  pyStrip (env.getD "") == "1"

/-- `predict_sugarcane` (prediction.py lines 39-54).  The loaded model list
and the demo flag are the module globals; `rand` is the abstract random draw
consumed by `np.random.randint`; `loadIm` models Keras `load_img` resizing to
224x224 and `pilIm` models the PIL open/convert/resize to 128x128 used by the
heuristic (with `none` for a failed read). -/
def predict_sugarcane (models : List Model) (demoMode : Bool) (rand : ℕ)
    (loadIm : String → Img224) (pilIm : String → Option Img128)
    (filepath : String) : ℕ :=
  if MODEL_PRESENT models = false ∨ models.isEmpty = true then
    if demoMode then np_randint 0 5 rand
    else heuristic_predict (pilIm filepath)
  else
    let x := preprocess_image (loadIm filepath)
    let preds := models.map (fun m => m x)
    let avg_preds := np_mean_axis0 preds
    np_argmax_row (fun i => avg_preds 0 i)

end Sugarcane

namespace Crop

/-- `previous_crop_mapping` (app.py lines 17-25), as an association list in
source order. -/
def previous_crop_mapping : List (String × Int) :=
  [("Groundnut", 1), ("Millets", 2), ("Wheat", 3), ("Maize", 4),
   ("Cotton", 5), ("Sorghum", 6), ("Barley", 7)]

/-- `soil_type_mapping` (app.py lines 27-32). -/
def soil_type_mapping : List (String × Int) :=
  [("Loamy", 1), ("Clayey", 2), ("Sandy", 3), ("Saline", 4)]

/-- `crop_mapping` (app.py lines 34-43): predicted class index to crop name. -/
def crop_mapping : List (Int × String) :=
  [(1, "Wheat"), (2, "Rice"), (3, "Millets"), (4, "Cotton"),
   (5, "Groundnut"), (6, "Maize"), (7, "Sorghum"), (8, "Barley")]

/-- Python `table.get(key, dflt)` where `key` came from `data.get(field)`:
an absent field is `none` (Python `None`, never a dict key here) and takes
the default, as does any string not among the table's keys. -/
def dictGetD (table : List (String × Int)) (key : Option String) (dflt : Int) : Int :=
  match key with
  | none => dflt
  | some k =>
    match table.find? (fun p => p.1 == k) with
    | some p => p.2
    | none => dflt

/-- Python `k in table` on the reverse label table. -/
def keyMem (table : List (Int × String)) (k : Int) : Bool :=
  table.any (fun p => p.1 == k)

/-- Python `table[k]` on the reverse label table, as an Option. -/
def tableGet (table : List (Int × String)) (k : Int) : Option String :=
  (table.find? (fun p => p.1 == k)).map (fun p => p.2)

/-- The JSON request body fields read via `data.get(...)` (app.py lines
55-60); `none` models an absent field. -/
structure CropRequest where
  previousCrop : Option String
  soilType : Option String
  moistureLevel : Option ℚ
  nitrogen : Option ℚ
  phosphorus : Option ℚ
  potassium : Option ℚ

/-- The single DataFrame row assembled for prediction (app.py lines 63-70):
mapped categorical codes plus the four numeric fields passed through
unchanged (`none`, Python `None`/NaN, when the field was absent). -/
structure FeatureRow where
  previousCrop : Int
  soilType : Int
  moistureLevel : Option ℚ
  nitrogen : Option ℚ
  phosphorus : Option ℚ
  potassium : Option ℚ

/-- Assembly of the feature row from the request (app.py lines 63-70). -/
def input_row (req : CropRequest) : FeatureRow :=
  { previousCrop := dictGetD previous_crop_mapping req.previousCrop (-1)
    soilType := dictGetD soil_type_mapping req.soilType (-1)
    moistureLevel := req.moistureLevel
    nitrogen := req.nitrogen
    phosphorus := req.phosphorus
    potassium := req.potassium }

/-- A response body: either a `Recommended Crop` payload or an `error`
payload. -/
inductive RespBody where
  | recommendedCrop (s : String)
  | errorMsg (s : String)
deriving DecidableEq

/-- A Flask response: body plus HTTP status (`jsonify(...)` alone is 200). -/
structure Resp where
  body : RespBody
  status : ℕ
deriving DecidableEq

/-- The `/crop_recommendation` handler (app.py lines 45-84).  `crop_model` is
the artifact loaded at startup (`none` when `joblib.load` failed); a loaded
model is opaque, so it is a function from the feature row to either a
predicted index or a raised exception (`Except.error`), the latter caught by
the handler's broad `except` clause and serialized with the default 200
status. -/
def crop_recommendation (crop_model : Option (FeatureRow → Except String Int))
    (req : CropRequest) : Resp :=
  match crop_model with
  | none =>
    ⟨RespBody.errorMsg "Model not loaded. Ensure crop_rotation_recommendation_model.pkl exists.", 500⟩
  | some f =>
    match f (input_row req) with
    | Except.error e => ⟨RespBody.errorMsg e, 200⟩
    | Except.ok pred =>
      if keyMem crop_mapping pred then
        ⟨RespBody.recommendedCrop ((tableGet crop_mapping pred).getD ""), 200⟩
      else
        ⟨RespBody.recommendedCrop "No prediction available", 200⟩

end Crop

namespace Sugarcane

/-- Constant image grid used to instantiate universally quantified image
arguments in concrete checks. -/
def zeroImg : Img128 := fun _ _ => (0, 0, 0)

/-- Constant 224x224 image used to instantiate the Keras `load_img`
collaborator in concrete checks. -/
def constLoad : String → Img224 := fun _ _ _ _ => 0

/-- PIL read that fails on every path (models `Image.open` raising). -/
def constPil : String → Option Img128 := fun _ => none

/-- A model producing a constant probability row, used in concrete checks. -/
def constModel : Model := fun _ _ _ => 0

/-- C1: the heuristic fallback classifier is a pure function of the
per-channel mean triple of the 128x128-resized image; exactly one of the five
ordered rules fires (first match wins) and the result is that rule's class
(green-dominance 0, yellow 4, red-dominance 2, brownish 3, catch-all 1); and
the four quoted mean triples evaluate to classes 2, 0, 4 and 1. -/
theorem C1_heuristic_rules :
    (∀ g1 g2 : Img128, meanR g1 = meanR g2 → meanG g1 = meanG g2 →
      meanB g1 = meanB g2 → heuristic_predict (some g1) = heuristic_predict (some g2)) ∧
    (∀ Rm Gm Bm : ℚ, ∃! i, fires Rm Gm Bm i) ∧
    (∀ Rm Gm Bm : ℚ, ∀ i, fires Rm Gm Bm i → heuristic_core Rm Gm Bm = ruleClass i) ∧
    (ruleClass 0 = 0 ∧ ruleClass 1 = 4 ∧ ruleClass 2 = 2 ∧ ruleClass 3 = 3 ∧ ruleClass 4 = 1) ∧
    heuristic_core 200 80 80 = 2 ∧ heuristic_core 50 200 50 = 0 ∧
    heuristic_core 150 150 50 = 4 ∧ heuristic_core 100 100 100 = 1 := by
  refine ⟨?_, ?_, fires_ruleClass, by norm_num [ruleClass], ?_, ?_, ?_, ?_⟩
  · intro g1 g2 hR hG hB
    simp only [heuristic_predict, hR, hG, hB]
  · intro Rm Gm Bm
    obtain ⟨i, hi⟩ := fires_exists Rm Gm Bm
    exact ⟨i, hi, fun j hj => fires_unique Rm Gm Bm j i hj hi⟩
  · norm_num [heuristic_core, brightness, max_def]
  · norm_num [heuristic_core, brightness, max_def]
  · norm_num [heuristic_core, brightness, max_def]
  · norm_num [heuristic_core, brightness, max_def]

/-- Witness for C1: applied to a concrete image with both mean hypotheses
discharged definitionally. -/
theorem C1_heuristic_rules_witness :
    heuristic_predict (some zeroImg) = heuristic_predict (some zeroImg) :=
  C1_heuristic_rules.1 zeroImg zeroImg rfl rfl rfl

/-- C3 counterexample: at means Rm=140, Gm=100, Bm=60 the heuristic does not
return class 3. -/
theorem C3_counterexample : heuristic_core 140 100 60 ≠ 3 := by
  norm_num [heuristic_core, brightness, max_def]

/-- C3 amended: at means Rm=140, Gm=100, Bm=60 the heuristic returns class 2
(RedRot), because the red-dominance rule (index 2) fires first:
140 - max(100, 60) = 40 ≥ 20, so the rust rule is never reached. -/
theorem C3_redrot_fires : heuristic_core 140 100 60 = 2 ∧ fires 140 100 60 2 := by
  refine ⟨by norm_num [heuristic_core, brightness, max_def], ?_, ?_⟩
  · show (140 : ℚ) - max 100 60 ≥ 20
    norm_num [max_def]
  · intro j hj
    interval_cases j
    · show ¬ ((100 : ℚ) - max 140 60 ≥ 20)
      norm_num [max_def]
    · show ¬ ((140 : ℚ) > 120 ∧ (100 : ℚ) > 120 ∧ (60 : ℚ) < 100)
      norm_num

/-- C4: whenever the image read/decode fails, `heuristic_predict` returns
class 0 (the `except` clause), and it is a total function, so the read error
never escapes to the caller. -/
theorem C4_read_failure_healthy (read : String → Option Img128) (p : String)
    (h : read p = none) : heuristic_predict (read p) = 0 := by
  rw [h]
  rfl

/-- Witness for C4: a read that fails on a concrete path. -/
theorem C4_read_failure_healthy_witness : heuristic_predict (constPil "corrupt.png") = 0 :=
  C4_read_failure_healthy constPil "corrupt.png" rfl

/-- C2: with at least one loaded model, the prediction preprocesses once
(scaling the 224x224 pixel values into [0,1] and adding the leading batch
dimension of size 1, which is the `Fin 1` index of `Tensor`), feeds the
identical tensor to every model, and returns the arg-max of the elementwise
arithmetic mean of the models' probability rows. -/
theorem C2_ensemble_mean_argmax (models : List Model) (hm : models ≠ [])
    (demoMode : Bool) (rand : ℕ) (loadIm : String → Img224)
    (pilIm : String → Option Img128) (fp : String)
    (hrange : ∀ i j c, 0 ≤ loadIm fp i j c ∧ loadIm fp i j c ≤ 255) :
    (∀ b i j c, 0 ≤ preprocess_image (loadIm fp) b i j c ∧
      preprocess_image (loadIm fp) b i j c ≤ 1) ∧
    predict_sugarcane models demoMode rand loadIm pilIm fp =
      np_argmax_row (fun i =>
        (models.map (fun m => m (preprocess_image (loadIm fp)) 0 i)).sum / models.length) := by
  constructor
  · intro b i j c
    constructor
    · exact div_nonneg (hrange i j c).1 (by norm_num)
    · rw [preprocess_image, div_le_one (by norm_num)]
      exact (hrange i j c).2
  · cases models with
    | nil => exact absurd rfl hm
    | cons m ms =>
      simp only [predict_sugarcane, MODEL_PRESENT, np_mean_axis0]
      rw [if_neg (by simp)]
      simp [List.map_map, Function.comp_def]

/-- Witness for C2: one constant model, a constant image, all hypotheses
discharged on concrete data. -/
theorem C2_ensemble_mean_argmax_witness :
    predict_sugarcane [constModel] false 0 constLoad constPil "leaf.png" =
      np_argmax_row (fun i =>
        ([constModel].map (fun m => m (preprocess_image (constLoad "leaf.png")) 0 i)).sum /
          ([constModel] : List Model).length) :=
  (C2_ensemble_mean_argmax [constModel] (List.cons_ne_nil _ _) false 0 constLoad constPil
    "leaf.png" (fun _ _ _ => ⟨le_refl 0, show (0 : ℚ) ≤ 255 by norm_num⟩)).2

/-- C9: with zero models loaded and demo mode enabled, every call returns
exactly the modelled `np.random.randint(0, 5)` draw; that draw is always in
[0,4]; every value in [0,4] is attainable; and over any uniform block of 25
consecutive draws each class value occurs equally often (5 times), the
uniformity contract of `randint`. -/
theorem C9_demo_random :
    (∀ (rand : ℕ) (loadIm : String → Img224) (pilIm : String → Option Img128)
        (fp : String),
      predict_sugarcane [] true rand loadIm pilIm fp = np_randint 0 5 rand) ∧
    (∀ r, np_randint 0 5 r < 5) ∧
    (∀ v, v < 5 → ∃ r, np_randint 0 5 r = v) ∧
    (∀ v, v < 5 → ((Finset.range 25).filter (fun r => np_randint 0 5 r = v)).card = 5) := by
  refine ⟨?_, ?_, ?_, ?_⟩
  · intro rand loadIm pilIm fp
    simp [predict_sugarcane, MODEL_PRESENT]
  · intro r
    simp only [np_randint, Nat.zero_add]
    omega
  · intro v hv
    exact ⟨v, by simp only [np_randint, Nat.zero_add]; omega⟩
  · intro v hv
    interval_cases v <;> decide

/-- Witness for C9: class 3 is attainable, with the bound discharged
concretely. -/
theorem C9_demo_random_witness : ∃ r, np_randint 0 5 r = 3 :=
  C9_demo_random.2.2.1 3 (by decide)

/-- C10: demo mode is on exactly when the stripped environment value equals
the string 1: the quoted examples evaluate as claimed, and with zero models
and a non-enabling value the heuristic fallback runs instead of the random
path. -/
theorem C10_demo_toggle :
    (∀ env : Option String, DEMO_MODE env = true ↔ pyStrip (env.getD "") = "1") ∧
    DEMO_MODE (some " 1 ") = true ∧ DEMO_MODE (some "true") = false ∧
    DEMO_MODE (some "yes") = false ∧ DEMO_MODE (some "0") = false ∧
    DEMO_MODE none = false ∧
    (∀ (env : Option String) (rand : ℕ) (loadIm : String → Img224)
        (pilIm : String → Option Img128) (fp : String),
      DEMO_MODE env = false →
        predict_sugarcane [] (DEMO_MODE env) rand loadIm pilIm fp =
          heuristic_predict (pilIm fp)) := by
  refine ⟨?_, by decide, by decide, by decide, by decide, by decide, ?_⟩
  · intro env
    simp [DEMO_MODE]
  · intro env rand loadIm pilIm fp h
    simp [predict_sugarcane, MODEL_PRESENT, h]

/-- Witness for C10: a non-enabling value on a concrete call, the disabling
hypothesis discharged by evaluation. -/
theorem C10_demo_toggle_witness :
    predict_sugarcane [] (DEMO_MODE (some "true")) 0 constLoad constPil "x.png" =
      heuristic_predict (constPil "x.png") :=
  C10_demo_toggle.2.2.2.2.2.2 (some "true") 0 constLoad constPil "x.png" (by decide)

end Sugarcane

namespace Crop

theorem dictGetD_default (table : List (String × Int)) (key : Option String) (dflt : Int)
    (h : ∀ k ∈ table.map Prod.fst, key ≠ some k) : dictGetD table key dflt = dflt := by
  cases key with
  | none => rfl
  | some k =>
    have hfind : table.find? (fun p => p.1 == k) = none := by
      rw [List.find?_eq_none]
      intro x hx
      simp only [beq_iff_eq]
      intro hxk
      exact h k (List.mem_map.mpr ⟨x, hx, hxk⟩) rfl
    simp [dictGetD, hfind]

/-- A request whose category strings appear in neither mapping table. -/
def unknownReq : CropRequest :=
  ⟨some "Rice", some "Peaty", none, none, none, none⟩

/-- A request with every field absent. -/
def emptyReq : CropRequest :=
  ⟨none, none, none, none, none, none⟩

/-- A loaded classifier that always predicts the unmapped index 99. -/
def okModel99 : FeatureRow → Except String Int := fun _ => Except.ok 99

/-- A loaded classifier that always predicts index 1 (Wheat). -/
def okModel1 : FeatureRow → Except String Int := fun _ => Except.ok 1

/-- A loaded classifier whose predict call raises. -/
def failModel : FeatureRow → Except String Int := fun _ => Except.error "predict failed"

/-- C5: a category string not present in the Previous Crop or Soil Type
table — including an absent field — maps to the sentinel code -1 in the
assembled feature row; the mapping is a total function, so no error is
raised by the mapping step. -/
theorem C5_unknown_category (req : CropRequest)
    (hp : ∀ k ∈ previous_crop_mapping.map Prod.fst, req.previousCrop ≠ some k)
    (hs : ∀ k ∈ soil_type_mapping.map Prod.fst, req.soilType ≠ some k) :
    (input_row req).previousCrop = -1 ∧ (input_row req).soilType = -1 :=
  ⟨dictGetD_default previous_crop_mapping req.previousCrop (-1) hp,
   dictGetD_default soil_type_mapping req.soilType (-1) hs⟩

/-- Witness for C5: an unknown crop string and an unknown soil string. -/
theorem C5_unknown_category_witness :
    (input_row unknownReq).previousCrop = -1 ∧ (input_row unknownReq).soilType = -1 :=
  C5_unknown_category unknownReq (by decide) (by decide)

/-- C6: when the model predicts an index outside the 8-entry reverse label
table, the response is the No prediction available body with HTTP 200, not an
error; for an index in the table, the response carries the mapped crop name
with HTTP 200. -/
theorem C6_reverse_label (f : FeatureRow → Except String Int) (req : CropRequest)
    (pred : Int) (h : f (input_row req) = Except.ok pred) :
    (keyMem crop_mapping pred = false →
      crop_recommendation (some f) req =
        ⟨RespBody.recommendedCrop "No prediction available", 200⟩) ∧
    (∀ name, tableGet crop_mapping pred = some name →
      crop_recommendation (some f) req = ⟨RespBody.recommendedCrop name, 200⟩) := by
  constructor
  · intro hk
    simp [crop_recommendation, h, hk]
  · intro name hn
    obtain ⟨p, hp1, hp2⟩ := Option.map_eq_some'.mp hn
    have h1 := List.find?_some hp1
    have hk : keyMem crop_mapping pred = true :=
      List.any_eq_true.mpr ⟨p, List.mem_of_find?_eq_some hp1, h1⟩
    simp [crop_recommendation, h, hk, hn]

/-- Witness for C6: a predicted index 99 outside the table yields the
sentinel response, and index 1 yields Wheat. -/
theorem C6_reverse_label_witness :
    crop_recommendation (some okModel99) emptyReq =
      ⟨RespBody.recommendedCrop "No prediction available", 200⟩ ∧
    crop_recommendation (some okModel1) emptyReq =
      ⟨RespBody.recommendedCrop "Wheat", 200⟩ :=
  ⟨(C6_reverse_label okModel99 emptyReq 99 rfl).1 (by decide),
   (C6_reverse_label okModel1 emptyReq 1 rfl).2 "Wheat" (by decide)⟩

/-- C7: with no classifier artifact loaded the handler answers the
model-not-loaded error body with HTTP 500 for every request, reaching no
inference call; any exception raised during inference is caught and
serialized as an error body with the default HTTP 200. -/
theorem C7_error_paths :
    (∀ req, crop_recommendation none req =
      ⟨RespBody.errorMsg "Model not loaded. Ensure crop_rotation_recommendation_model.pkl exists.", 500⟩) ∧
    (∀ (f : FeatureRow → Except String Int) (req : CropRequest) (e : String),
      f (input_row req) = Except.error e →
        crop_recommendation (some f) req = ⟨RespBody.errorMsg e, 200⟩) := by
  refine ⟨fun req => rfl, ?_⟩
  intro f req e h
  simp [crop_recommendation, h]

/-- Witness for C7: the model-missing path and a concrete raising model. -/
theorem C7_error_paths_witness :
    crop_recommendation none emptyReq =
      ⟨RespBody.errorMsg "Model not loaded. Ensure crop_rotation_recommendation_model.pkl exists.", 500⟩ ∧
    crop_recommendation (some failModel) emptyReq =
      ⟨RespBody.errorMsg "predict failed", 200⟩ :=
  ⟨C7_error_paths.1 emptyReq, C7_error_paths.2 failModel emptyReq "predict failed" rfl⟩

/-- C8: a request with all four numeric fields absent is not rejected: the
assembled feature row carries the sentinel `none` (Python None/NaN) in those
positions, and when the model accepts the row the handler still answers a
Recommended Crop body with HTTP 200. -/
theorem C8_missing_numeric (f : FeatureRow → Except String Int) (req : CropRequest)
    (hm : req.moistureLevel = none) (hn : req.nitrogen = none)
    (hph : req.phosphorus = none) (hk : req.potassium = none) :
    (input_row req).moistureLevel = none ∧ (input_row req).nitrogen = none ∧
    (input_row req).phosphorus = none ∧ (input_row req).potassium = none ∧
    (∀ pred : Int, f (input_row req) = Except.ok pred →
      (crop_recommendation (some f) req).status = 200 ∧
      ∃ s, (crop_recommendation (some f) req).body = RespBody.recommendedCrop s) := by
  refine ⟨hm, hn, hph, hk, ?_⟩
  intro pred h
  by_cases hkm : keyMem crop_mapping pred = true
  · exact ⟨by simp [crop_recommendation, h, hkm],
      ⟨(tableGet crop_mapping pred).getD "", by simp [crop_recommendation, h, hkm]⟩⟩
  · rw [Bool.not_eq_true] at hkm
    exact ⟨by simp [crop_recommendation, h, hkm],
      ⟨"No prediction available", by simp [crop_recommendation, h, hkm]⟩⟩

/-- Witness for C8: the all-absent request against a concrete model. -/
theorem C8_missing_numeric_witness :
    (input_row emptyReq).moistureLevel = none ∧
    (crop_recommendation (some okModel1) emptyReq).status = 200 :=
  ⟨(C8_missing_numeric okModel1 emptyReq rfl rfl rfl rfl).1,
   ((C8_missing_numeric okModel1 emptyReq rfl rfl rfl rfl).2.2.2.2 1 rfl).1⟩

end Crop
